import Mathlib

/-!
Verification of the status-refresh probes, the generic state-transition
waiter contract, and the SageMaker model container expand/flatten and read
functions of this terraform provider repository.

Shallow embedding conventions:
  - Go errors become the `GoError` type; a nil Go error is `Option.none`.
  - A Go function returning `(out *T, err error)` under the repository's
    finder convention (exactly one of `out` and `err` is non-nil) is
    embedded as `Except GoError T`; `finder.FindDBProxyEndpoint`, whose
    caller explicitly distinguishes `output == nil` with a nil error, is
    embedded as the raw pair `Option T × Option GoError`.
  - A probe constructor (`ServerState conn id` etc.) returns a closure;
    the closure's only effect is one finder call, so it is embedded as a
    function from a world (the finder responses) to its result triple.
-/

namespace TfAws

/-- A Go `error` value: an AWS SDK error with a code and message, the
`tfresource.NotFoundError` sentinel, or any other error. -/
inductive GoError where
  | awsError (code message : String)
  | notFoundError
  | plain (msg : String)
deriving DecidableEq, Repr

/-- `tfresource.NotFound(err)`: true iff `err` unwraps to
`tfresource.NotFoundError` (false on a nil error). -/
def NotFound : Option GoError → Bool
  | some .notFoundError => true
  | _ => false

/-- `aws.StringValue`: dereference a `*string`, with `""` for nil. -/
def awsStringValue : Option String → String
  | some s => s
  | none => ""

/-- `transfer.DescribedServer` (the fields used here plus identifiers). -/
structure DescribedServer where
  Arn : Option String
  ServerId : Option String
  State : Option String
deriving DecidableEq, Repr

/-- `transfer.DescribedUser`: a transfer user has no State/Status
lifecycle field in the SDK; these are its identifying string fields. -/
structure DescribedUser where
  Arn : Option String
  HomeDirectory : Option String
  Role : Option String
  UserName : Option String
deriving DecidableEq, Repr

/-- `rds.EventSubscription` (the fields used here). -/
structure EventSubscription where
  CustSubscriptionId : Option String
  Status : Option String
deriving DecidableEq, Repr

/-- `rds.DBProxyEndpoint` (the fields used here). -/
structure DBProxyEndpoint where
  DBProxyEndpointName : Option String
  Status : Option String
deriving DecidableEq, Repr

/-- `rds.DBClusterRole` (the fields used here). -/
structure DBClusterRole where
  RoleArn : Option String
  Status : Option String
deriving DecidableEq, Repr

/-- The transfer-service finder responses a probe closure can observe,
indexed by the connection and identifiers the closure captures. Finders
follow the repository's convention: exactly one of output and error is
non-nil, so each response is an `Except`. -/
structure TransferWorld where
  serverByID : String → String → Except GoError DescribedServer
  userByServerIDAndUserName : String → String → String → Except GoError DescribedUser

/-- The RDS-service finder responses a probe closure can observe.
`findDBProxyEndpoint` is the raw Go pair: its caller distinguishes a nil
output with a nil error. -/
structure RDSWorld where
  findEventSubscriptionByID : String → String → Except GoError EventSubscription
  findDBProxyEndpoint : String → String → Option DBProxyEndpoint × Option GoError
  findDBClusterRoleByDBClusterIDAndRoleARN :
    String → String → String → Except GoError DBClusterRole

/-- The result triple of one `resource.StateRefreshFunc` invocation:
(representation, state token, error). -/
abbrev StateRefreshResult (ρ : Type) := Option ρ × String × Option GoError

/-- `userStateExists`: the constant token `UserState` reports. -/
def userStateExists : String := "exists"

/-- `waiter.ServerState` (transfer): not-found gives `(nil, "", nil)`,
another error is propagated, success returns the server and its State. -/
def ServerState (conn id : String) (w : TransferWorld) :
    StateRefreshResult DescribedServer :=
  match w.serverByID conn id with
  | .error e =>
    if NotFound (some e) then (none, "", none)
    else (none, "", some e)
  | .ok output => (some output, awsStringValue output.State, none)

/-- `waiter.UserState` (transfer): not-found gives `(nil, "", nil)`,
another error is propagated, success returns the user and the constant
token `userStateExists`. -/
def UserState (conn serverID userName : String) (w : TransferWorld) :
    StateRefreshResult DescribedUser :=
  match w.userByServerIDAndUserName conn serverID userName with
  | .error e =>
    if NotFound (some e) then (none, "", none)
    else (none, "", some e)
  | .ok output => (some output, userStateExists, none)

/-- `statusEventSubscription` (rds): same shape as `ServerState`, with
the subscription's Status as the token. -/
def statusEventSubscription (conn id : String) (w : RDSWorld) :
    StateRefreshResult EventSubscription :=
  match w.findEventSubscriptionByID conn id with
  | .error e =>
    if NotFound (some e) then (none, "", none)
    else (none, "", some e)
  | .ok output => (some output, awsStringValue output.Status, none)

/-- ProxyEndpoint NotFound token. -/
def proxyEndpointStatusNotFound : String := "NotFound"

/-- ProxyEndpoint Unknown token. -/
def proxyEndpointStatusUnknown : String := "Unknown"

/-- `statusDBProxyEndpoint` (rds): an error gives `(nil, "Unknown", err)`,
a nil output gives `(nil, "NotFound", nil)`, success returns the endpoint
and its Status. -/
def statusDBProxyEndpoint (conn id : String) (w : RDSWorld) :
    StateRefreshResult DBProxyEndpoint :=
  let r := w.findDBProxyEndpoint conn id
  match r.2 with
  | some e => (none, proxyEndpointStatusUnknown, some e)
  | none =>
    match r.1 with
    | none => (none, proxyEndpointStatusNotFound, none)
    | some output => (some output, awsStringValue output.Status, none)

/-- `statusDBClusterRole` (rds): same shape as `ServerState`, with the
role's Status as the token. -/
def statusDBClusterRole (conn dbClusterID roleARN : String) (w : RDSWorld) :
    StateRefreshResult DBClusterRole :=
  match w.findDBClusterRoleByDBClusterIDAndRoleARN conn dbClusterID roleARN with
  | .error e =>
    if NotFound (some e) then (none, "", none)
    else (none, "", some e)
  | .ok output => (some output, awsStringValue output.Status, none)

/-- A world in which every transfer finder reports not-found. -/
def twNF : TransferWorld where
  serverByID := fun _ _ => .error .notFoundError
  userByServerIDAndUserName := fun _ _ _ => .error .notFoundError

/-- A world in which every RDS finder reports not-found. -/
def rwNF : RDSWorld where
  findEventSubscriptionByID := fun _ _ => .error .notFoundError
  findDBProxyEndpoint := fun _ _ => (none, none)
  findDBClusterRoleByDBClusterIDAndRoleARN := fun _ _ _ => .error .notFoundError

end TfAws

namespace TfAws

/-- Claim C1: for every status-refresh probe (ServerState, UserState,
statusEventSubscription, statusDBProxyEndpoint, statusDBClusterRole) and
every finder outcome classified as not-found, the returned closure
reports a nil error: not-found is never propagated as an error. -/
theorem probes_notFound_is_not_an_error
    (conn id serverID userName dbClusterID roleARN : String)
    (tw : TransferWorld) (rw : RDSWorld) :
    (∀ e, tw.serverByID conn id = .error e → NotFound (some e) = true →
      (ServerState conn id tw).2.2 = none)
    ∧ (∀ e, tw.userByServerIDAndUserName conn serverID userName = .error e →
      NotFound (some e) = true → (UserState conn serverID userName tw).2.2 = none)
    ∧ (∀ e, rw.findEventSubscriptionByID conn id = .error e → NotFound (some e) = true →
      (statusEventSubscription conn id rw).2.2 = none)
    ∧ (rw.findDBProxyEndpoint conn id = (none, none) →
      (statusDBProxyEndpoint conn id rw).2.2 = none)
    ∧ (∀ e, rw.findDBClusterRoleByDBClusterIDAndRoleARN conn dbClusterID roleARN = .error e →
      NotFound (some e) = true →
      (statusDBClusterRole conn dbClusterID roleARN rw).2.2 = none) := by
  refine ⟨fun e he hnf => ?_, fun e he hnf => ?_, fun e he hnf => ?_,
    fun he => ?_, fun e he hnf => ?_⟩
  · simp [ServerState, he, hnf]
  · simp [UserState, he, hnf]
  · simp [statusEventSubscription, he, hnf]
  · simp [statusDBProxyEndpoint, he]
  · simp [statusDBClusterRole, he, hnf]

/-- Witness for C1 at concrete not-found worlds. -/
theorem probes_notFound_is_not_an_error_witness :
    (ServerState "c" "i" twNF).2.2 = none
    ∧ (UserState "c" "s" "u" twNF).2.2 = none
    ∧ (statusEventSubscription "c" "i" rwNF).2.2 = none
    ∧ (statusDBProxyEndpoint "c" "i" rwNF).2.2 = none
    ∧ (statusDBClusterRole "c" "d" "r" rwNF).2.2 = none := by
  obtain ⟨h1, h2, h3, h4, h5⟩ :=
    probes_notFound_is_not_an_error "c" "i" "s" "u" "d" "r" twNF rwNF
  exact ⟨h1 _ rfl rfl, h2 _ rfl rfl, h3 _ rfl rfl, h4 rfl, h5 _ rfl rfl⟩

/-- A world in which every transfer finder fails with a plain error. -/
def twErr : TransferWorld where
  serverByID := fun _ _ => .error (.plain "boom")
  userByServerIDAndUserName := fun _ _ _ => .error (.plain "boom")

/-- A world in which every RDS finder fails with a plain error. -/
def rwErr : RDSWorld where
  findEventSubscriptionByID := fun _ _ => .error (.plain "boom")
  findDBProxyEndpoint := fun _ _ => (none, some (.plain "boom"))
  findDBClusterRoleByDBClusterIDAndRoleARN := fun _ _ _ => .error (.plain "boom")

/-- Claim C2: for every probe and every finder error not classified as
not-found, the closure propagates that error unchanged together with a
nil representation. (`statusDBProxyEndpoint` classifies no error as
not-found, so every finder error is covered there.) -/
theorem probes_propagate_errors
    (conn id serverID userName dbClusterID roleARN : String)
    (tw : TransferWorld) (rw : RDSWorld) :
    (∀ e, tw.serverByID conn id = .error e → NotFound (some e) = false →
      (ServerState conn id tw).1 = none ∧ (ServerState conn id tw).2.2 = some e)
    ∧ (∀ e, tw.userByServerIDAndUserName conn serverID userName = .error e →
      NotFound (some e) = false →
      (UserState conn serverID userName tw).1 = none
        ∧ (UserState conn serverID userName tw).2.2 = some e)
    ∧ (∀ e, rw.findEventSubscriptionByID conn id = .error e → NotFound (some e) = false →
      (statusEventSubscription conn id rw).1 = none
        ∧ (statusEventSubscription conn id rw).2.2 = some e)
    ∧ (∀ e o, rw.findDBProxyEndpoint conn id = (o, some e) →
      (statusDBProxyEndpoint conn id rw).1 = none
        ∧ (statusDBProxyEndpoint conn id rw).2.2 = some e)
    ∧ (∀ e, rw.findDBClusterRoleByDBClusterIDAndRoleARN conn dbClusterID roleARN = .error e →
      NotFound (some e) = false →
      (statusDBClusterRole conn dbClusterID roleARN rw).1 = none
        ∧ (statusDBClusterRole conn dbClusterID roleARN rw).2.2 = some e) := by
  refine ⟨fun e he hnf => ?_, fun e he hnf => ?_, fun e he hnf => ?_,
    fun e o he => ?_, fun e he hnf => ?_⟩
  · constructor <;> simp [ServerState, he, hnf]
  · constructor <;> simp [UserState, he, hnf]
  · constructor <;> simp [statusEventSubscription, he, hnf]
  · constructor <;> simp [statusDBProxyEndpoint, he]
  · constructor <;> simp [statusDBClusterRole, he, hnf]

/-- Witness for C2 at concrete failing worlds. -/
theorem probes_propagate_errors_witness :
    ((ServerState "c" "i" twErr).1 = none
      ∧ (ServerState "c" "i" twErr).2.2 = some (.plain "boom"))
    ∧ ((UserState "c" "s" "u" twErr).1 = none
      ∧ (UserState "c" "s" "u" twErr).2.2 = some (.plain "boom"))
    ∧ ((statusEventSubscription "c" "i" rwErr).1 = none
      ∧ (statusEventSubscription "c" "i" rwErr).2.2 = some (.plain "boom"))
    ∧ ((statusDBProxyEndpoint "c" "i" rwErr).1 = none
      ∧ (statusDBProxyEndpoint "c" "i" rwErr).2.2 = some (.plain "boom"))
    ∧ ((statusDBClusterRole "c" "d" "r" rwErr).1 = none
      ∧ (statusDBClusterRole "c" "d" "r" rwErr).2.2 = some (.plain "boom")) := by
  obtain ⟨h1, h2, h3, h4, h5⟩ :=
    probes_propagate_errors "c" "i" "s" "u" "d" "r" twErr rwErr
  exact ⟨h1 _ rfl rfl, h2 _ rfl rfl, h3 _ rfl rfl, h4 _ none rfl, h5 _ rfl rfl⟩

/-- Claim C3 counterexample: on a not-found outcome,
`statusDBProxyEndpoint` hands the waiter the token `"NotFound"`, not the
distinguished empty token. -/
theorem statusDBProxyEndpoint_notFound_token_not_empty :
    (statusDBProxyEndpoint "c" "i" rwNF).2.1 = "NotFound"
    ∧ (statusDBProxyEndpoint "c" "i" rwNF).2.1 ≠ "" := by
  constructor <;> decide

/-- Claim C3 (amended): on a not-found outcome, ServerState, UserState,
statusEventSubscription and statusDBClusterRole return the distinguished
empty token, while statusDBProxyEndpoint returns the distinguished token
`"NotFound"`. -/
theorem probes_notFound_token
    (conn id serverID userName dbClusterID roleARN : String)
    (tw : TransferWorld) (rw : RDSWorld) :
    (∀ e, tw.serverByID conn id = .error e → NotFound (some e) = true →
      (ServerState conn id tw).2.1 = "")
    ∧ (∀ e, tw.userByServerIDAndUserName conn serverID userName = .error e →
      NotFound (some e) = true → (UserState conn serverID userName tw).2.1 = "")
    ∧ (∀ e, rw.findEventSubscriptionByID conn id = .error e → NotFound (some e) = true →
      (statusEventSubscription conn id rw).2.1 = "")
    ∧ (∀ e, rw.findDBClusterRoleByDBClusterIDAndRoleARN conn dbClusterID roleARN = .error e →
      NotFound (some e) = true → (statusDBClusterRole conn dbClusterID roleARN rw).2.1 = "")
    ∧ (rw.findDBProxyEndpoint conn id = (none, none) →
      (statusDBProxyEndpoint conn id rw).2.1 = proxyEndpointStatusNotFound) := by
  refine ⟨fun e he hnf => ?_, fun e he hnf => ?_, fun e he hnf => ?_,
    fun e he hnf => ?_, fun he => ?_⟩
  · simp [ServerState, he, hnf]
  · simp [UserState, he, hnf]
  · simp [statusEventSubscription, he, hnf]
  · simp [statusDBClusterRole, he, hnf]
  · simp [statusDBProxyEndpoint, he]

/-- Witness for the amended C3 at concrete not-found worlds. -/
theorem probes_notFound_token_witness :
    (ServerState "c" "i" twNF).2.1 = ""
    ∧ (UserState "c" "s" "u" twNF).2.1 = ""
    ∧ (statusEventSubscription "c" "i" rwNF).2.1 = ""
    ∧ (statusDBClusterRole "c" "d" "r" rwNF).2.1 = ""
    ∧ (statusDBProxyEndpoint "c" "i" rwNF).2.1 = proxyEndpointStatusNotFound := by
  obtain ⟨h1, h2, h3, h4, h5⟩ :=
    probes_notFound_token "c" "i" "s" "u" "d" "r" twNF rwNF
  exact ⟨h1 _ rfl rfl, h2 _ rfl rfl, h3 _ rfl rfl, h4 _ rfl rfl, h5 rfl⟩

/-- A concrete transfer user whose every field differs from `"exists"`. -/
def aliceUser : DescribedUser where
  Arn := some "arn:alice"
  HomeDirectory := some "/home/alice"
  Role := some "role-alice"
  UserName := some "alice"

/-- A transfer world whose user finder succeeds with `aliceUser`. -/
def twAlice : TransferWorld where
  serverByID := fun _ _ => .error .notFoundError
  userByServerIDAndUserName := fun _ _ _ => .ok aliceUser

/-- Claim C4 counterexample: on a successful find, `UserState` returns
the constant token `"exists"`, which is not the value of any field of the
returned representation — a transfer user carries no State/Status
lifecycle field the token could be derived from. -/
theorem userState_token_not_from_lifecycle_field :
    UserState "c" "s" "alice" twAlice = (some aliceUser, "exists", none)
    ∧ aliceUser.Arn ≠ some "exists"
    ∧ aliceUser.HomeDirectory ≠ some "exists"
    ∧ aliceUser.Role ≠ some "exists"
    ∧ aliceUser.UserName ≠ some "exists" := by
  refine ⟨rfl, ?_, ?_, ?_, ?_⟩ <;> decide

/-- Claim C4 (amended): on a successful find, every probe returns the
finder's output whole; ServerState's token is the server's State field,
the three RDS probes' tokens are their output's Status field, and
UserState's token is the constant `"exists"`. -/
theorem probes_success_whole_representation
    (conn id serverID userName dbClusterID roleARN : String)
    (tw : TransferWorld) (rw : RDSWorld) :
    (∀ o, tw.serverByID conn id = .ok o →
      ServerState conn id tw = (some o, awsStringValue o.State, none))
    ∧ (∀ o, tw.userByServerIDAndUserName conn serverID userName = .ok o →
      UserState conn serverID userName tw = (some o, userStateExists, none))
    ∧ (∀ o, rw.findEventSubscriptionByID conn id = .ok o →
      statusEventSubscription conn id rw = (some o, awsStringValue o.Status, none))
    ∧ (∀ o, rw.findDBProxyEndpoint conn id = (some o, none) →
      statusDBProxyEndpoint conn id rw = (some o, awsStringValue o.Status, none))
    ∧ (∀ o, rw.findDBClusterRoleByDBClusterIDAndRoleARN conn dbClusterID roleARN = .ok o →
      statusDBClusterRole conn dbClusterID roleARN rw
        = (some o, awsStringValue o.Status, none)) := by
  refine ⟨fun o ho => ?_, fun o ho => ?_, fun o ho => ?_, fun o ho => ?_, fun o ho => ?_⟩
  · simp [ServerState, ho]
  · simp [UserState, ho]
  · simp [statusEventSubscription, ho]
  · simp [statusDBProxyEndpoint, ho]
  · simp [statusDBClusterRole, ho]

/-- A concrete available transfer server. -/
def onlineServer : DescribedServer where
  Arn := some "arn:server"
  ServerId := some "s-1"
  State := some "ONLINE"

/-- A concrete active event subscription. -/
def activeSubscription : EventSubscription where
  CustSubscriptionId := some "sub-1"
  Status := some "active"

/-- A concrete available proxy endpoint. -/
def availableEndpoint : DBProxyEndpoint where
  DBProxyEndpointName := some "ep-1"
  Status := some "available"

/-- A concrete active cluster role association. -/
def activeClusterRole : DBClusterRole where
  RoleArn := some "arn:role"
  Status := some "ACTIVE"

/-- A transfer world whose finders all succeed. -/
def twOk : TransferWorld where
  serverByID := fun _ _ => .ok onlineServer
  userByServerIDAndUserName := fun _ _ _ => .ok aliceUser

/-- An RDS world whose finders all succeed. -/
def rwOk : RDSWorld where
  findEventSubscriptionByID := fun _ _ => .ok activeSubscription
  findDBProxyEndpoint := fun _ _ => (some availableEndpoint, none)
  findDBClusterRoleByDBClusterIDAndRoleARN := fun _ _ _ => .ok activeClusterRole

/-- Witness for the amended C4 at concrete succeeding worlds. -/
theorem probes_success_whole_representation_witness :
    ServerState "c" "i" twOk = (some onlineServer, "ONLINE", none)
    ∧ UserState "c" "s" "alice" twOk = (some aliceUser, userStateExists, none)
    ∧ statusEventSubscription "c" "i" rwOk = (some activeSubscription, "active", none)
    ∧ statusDBProxyEndpoint "c" "i" rwOk = (some availableEndpoint, "available", none)
    ∧ statusDBClusterRole "c" "d" "r" rwOk = (some activeClusterRole, "ACTIVE", none) := by
  obtain ⟨h1, h2, h3, h4, h5⟩ :=
    probes_success_whole_representation "c" "i" "s" "alice" "d" "r" twOk rwOk
  exact ⟨h1 _ rfl, h2 _ rfl, h3 _ rfl, h4 _ rfl, h5 _ rfl⟩

/-- Claim C8: each probe closure is stateless and deterministic — it
captures only the connection and the resource identifiers, and its result
triple depends on nothing but the one finder response those captures
select: two invocations observing identical finder responses return
identical triples, whatever else differs between the two worlds. -/
theorem probes_deterministic
    (conn id serverID userName dbClusterID roleARN : String)
    (tw tw2 : TransferWorld) (rw rw2 : RDSWorld) :
    (tw.serverByID conn id = tw2.serverByID conn id →
      ServerState conn id tw = ServerState conn id tw2)
    ∧ (tw.userByServerIDAndUserName conn serverID userName
        = tw2.userByServerIDAndUserName conn serverID userName →
      UserState conn serverID userName tw = UserState conn serverID userName tw2)
    ∧ (rw.findEventSubscriptionByID conn id = rw2.findEventSubscriptionByID conn id →
      statusEventSubscription conn id rw = statusEventSubscription conn id rw2)
    ∧ (rw.findDBProxyEndpoint conn id = rw2.findDBProxyEndpoint conn id →
      statusDBProxyEndpoint conn id rw = statusDBProxyEndpoint conn id rw2)
    ∧ (rw.findDBClusterRoleByDBClusterIDAndRoleARN conn dbClusterID roleARN
        = rw2.findDBClusterRoleByDBClusterIDAndRoleARN conn dbClusterID roleARN →
      statusDBClusterRole conn dbClusterID roleARN rw
        = statusDBClusterRole conn dbClusterID roleARN rw2) := by
  refine ⟨fun h => ?_, fun h => ?_, fun h => ?_, fun h => ?_, fun h => ?_⟩
  · simp only [ServerState, h]
  · simp only [UserState, h]
  · simp only [statusEventSubscription, h]
  · simp only [statusDBProxyEndpoint, h]
  · simp only [statusDBClusterRole, h]

/-- A transfer world that agrees with `twOk` at the probed identifiers
but answers differently everywhere else. -/
def twOkElsewhere : TransferWorld where
  serverByID := fun _ id => if id = "i" then .ok onlineServer else .error .notFoundError
  userByServerIDAndUserName := fun _ _ u =>
    if u = "alice" then .ok aliceUser else .error (.plain "boom")

/-- An RDS world that agrees with `rwOk` at the probed identifiers but
answers differently everywhere else. -/
def rwOkElsewhere : RDSWorld where
  findEventSubscriptionByID := fun _ id =>
    if id = "i" then .ok activeSubscription else .error .notFoundError
  findDBProxyEndpoint := fun _ id =>
    if id = "i" then (some availableEndpoint, none) else (none, none)
  findDBClusterRoleByDBClusterIDAndRoleARN := fun _ d _ =>
    if d = "d" then .ok activeClusterRole else .error (.plain "boom")

/-- Witness for C8: `twOk`/`rwOk` and the worlds that differ away from
the probed identifiers produce identical triples. -/
theorem probes_deterministic_witness :
    ServerState "c" "i" twOk = ServerState "c" "i" twOkElsewhere
    ∧ UserState "c" "s" "alice" twOk = UserState "c" "s" "alice" twOkElsewhere
    ∧ statusEventSubscription "c" "i" rwOk = statusEventSubscription "c" "i" rwOkElsewhere
    ∧ statusDBProxyEndpoint "c" "i" rwOk = statusDBProxyEndpoint "c" "i" rwOkElsewhere
    ∧ statusDBClusterRole "c" "d" "r" rwOk
      = statusDBClusterRole "c" "d" "r" rwOkElsewhere := by
  obtain ⟨h1, h2, h3, h4, h5⟩ :=
    probes_deterministic "c" "i" "s" "alice" "d" "r" twOk twOkElsewhere rwOk rwOkElsewhere
  exact ⟨h1 rfl, h2 rfl, h3 rfl, h4 rfl, h5 rfl⟩

/-! ## The generic state-transition waiter

The waiter itself (`resource.StateChangeConf.WaitForState` of the
terraform plugin SDK) is not part of this repository's sources; only its
probe closures are. The loop below is therefore modelled from the spec. -/

/-- A terminal outcome of one `Wait` invocation: the spec's state machine
`Polling -> Success | Failed | TimedOut | Cancelled`, plus the propagated
probe error. -/
inductive WaitResult (ρ : Type) where
  | success (rep : Option ρ)
  | unexpectedTerminalState (token : String) (rep : Option ρ)
  | timedOut
  | cancelled
  | probeError (e : GoError)
deriving DecidableEq, Repr

/-- Modelled from the spec: the body of the state-transition waiter loop
(spec section 4.1), whose implementation is not under the repository
sources. At iteration `i` with remaining poll budget `fuel`: exhausted
fuel is the timeout; the cooperative cancellation signal `cancel i` is
checked at the top of the iteration, before the probe; then the probe
runs, a probe error is propagated immediately, a token in `targetStates`
returns success with the last representation, a token in `failureStates`
returns the unexpected-terminal error embedding the last representation,
and otherwise the loop sleeps and repeats. -/
def waitLoop {ρ : Type} (probe : Nat → StateRefreshResult ρ) (cancel : Nat → Bool)
    (targetStates failureStates : List String) : Nat → Nat → WaitResult ρ
  | _, 0 => .timedOut
  | i, fuel + 1 =>
    if cancel i then .cancelled
    else
      match probe i with
      | (_, _, some e) => .probeError e
      | (rep, token, none) =>
        if token ∈ targetStates then .success rep
        else if token ∈ failureStates then .unexpectedTerminalState token rep
        else waitLoop probe cancel targetStates failureStates (i + 1) fuel

/-- Modelled from the spec: `Wait(probe, targetStates, failureStates, ...)`
drives the loop from iteration 0 with `fuel` polls allowed by the
timeout. -/
def Wait {ρ : Type} (probe : Nat → StateRefreshResult ρ) (cancel : Nat → Bool)
    (targetStates failureStates : List String) (fuel : Nat) : WaitResult ρ :=
  waitLoop probe cancel targetStates failureStates 0 fuel

/-- A probe result is non-terminal when it carries no error and a token
in neither terminal set. -/
def nonTerminal {ρ : Type} (r : StateRefreshResult ρ)
    (targetStates failureStates : List String) : Prop :=
  r.2.2 = none ∧ r.2.1 ∉ targetStates ∧ r.2.1 ∉ failureStates

instance {ρ : Type} (r : StateRefreshResult ρ) (ts fs : List String) :
    Decidable (nonTerminal r ts fs) := by
  unfold nonTerminal; infer_instance

/-- A non-terminal probe result at an uncancelled iteration makes the
loop advance one step. -/
theorem waitLoop_step {ρ : Type} (probe : Nat → StateRefreshResult ρ)
    (cancel : Nat → Bool) (ts fs : List String) (i fuel : Nat)
    (hc : cancel i = false) (h : nonTerminal (probe i) ts fs) :
    waitLoop probe cancel ts fs i (fuel + 1) = waitLoop probe cancel ts fs (i + 1) fuel := by
  obtain ⟨he, ht, hf⟩ := h
  rcases hpi : probe i with ⟨rep, token, err⟩
  rw [hpi] at he ht hf
  simp only at he ht hf
  subst he
  simp [waitLoop, hc, hpi, ht, hf]

/-- Running the loop past a non-terminal, uncancelled prefix of length
`n` lands at iteration `i + n`. -/
theorem waitLoop_skip_prefix {ρ : Type} (probe : Nat → StateRefreshResult ρ)
    (cancel : Nat → Bool) (ts fs : List String) :
    ∀ (n i fuel : Nat),
      (∀ k, k < n → cancel (i + k) = false) →
      (∀ k, k < n → nonTerminal (probe (i + k)) ts fs) →
      waitLoop probe cancel ts fs i (n + fuel) = waitLoop probe cancel ts fs (i + n) fuel := by
  intro n
  induction n with
  | zero => intro i fuel _ _; rw [Nat.zero_add, Nat.add_zero]
  | succ m ih =>
    intro i fuel hc hp
    have hstep : waitLoop probe cancel ts fs i (m + fuel + 1)
        = waitLoop probe cancel ts fs (i + 1) (m + fuel) := by
      have hc0 : cancel i = false := by simpa using hc 0 (Nat.succ_pos m)
      have hp0 : nonTerminal (probe i) ts fs := by simpa using hp 0 (Nat.succ_pos m)
      exact waitLoop_step probe cancel ts fs i (m + fuel) hc0 hp0
    have hm : waitLoop probe cancel ts fs (i + 1) (m + fuel)
        = waitLoop probe cancel ts fs (i + 1 + m) fuel := by
      refine ih (i + 1) fuel (fun k hk => ?_) (fun k hk => ?_)
      · have := hc (k + 1) (Nat.succ_lt_succ hk)
        simpa [Nat.add_assoc, Nat.add_comm 1 k] using this
      · have := hp (k + 1) (Nat.succ_lt_succ hk)
        simpa [Nat.add_assoc, Nat.add_comm 1 k] using this
    calc waitLoop probe cancel ts fs i (m + 1 + fuel)
        = waitLoop probe cancel ts fs i (m + fuel + 1) := by
          rw [Nat.add_assoc, Nat.add_comm 1 fuel, ← Nat.add_assoc]
      _ = waitLoop probe cancel ts fs (i + 1) (m + fuel) := hstep
      _ = waitLoop probe cancel ts fs (i + 1 + m) fuel := hm
      _ = waitLoop probe cancel ts fs (i + (m + 1)) fuel := by
          rw [Nat.add_assoc, Nat.add_comm 1 m]

/-- Claim C5: for every probe sequence whose n-th result carries a token
in `targetStates` (with a non-terminal, uncancelled prefix before it)
within the poll budget, `Wait` returns success with the final
representation — the one returned by that last probe call. -/
theorem wait_reaches_target {ρ : Type} (probe : Nat → StateRefreshResult ρ)
    (cancel : Nat → Bool) (ts fs : List String) (n fuel : Nat)
    (hfuel : n < fuel)
    (hcancel : ∀ i, i ≤ n → cancel i = false)
    (hpre : ∀ i, i < n → nonTerminal (probe i) ts fs)
    (herr : (probe n).2.2 = none)
    (htgt : (probe n).2.1 ∈ ts) :
    Wait probe cancel ts fs fuel = .success (probe n).1 := by
  obtain ⟨m, hm⟩ : ∃ m, fuel = n + (m + 1) := ⟨fuel - n - 1, by omega⟩
  have hskip := waitLoop_skip_prefix probe cancel ts fs n 0 (m + 1)
    (fun k hk => hcancel (0 + k) (by omega))
    (fun k hk => by simpa using hpre (0 + k) (by omega))
  rcases hpn : probe n with ⟨rep, token, err⟩
  rw [hpn] at herr htgt
  simp only at herr htgt
  subst herr
  have hcn : cancel n = false := hcancel n (Nat.le_refl n)
  rw [Wait, hm, hskip, Nat.zero_add]
  simp [waitLoop, hcn, hpn, htgt]

/-- Witness probe sequence for C5: Creating, Creating, then Active. -/
def probeSeqCreating : Nat → StateRefreshResult String := fun n =>
  if n < 2 then (some "rep-creating", "Creating", none)
  else (some "rep-active", "Active", none)

/-- A cancellation signal that never fires. -/
def noCancel : Nat → Bool := fun _ => false

/-- Witness for C5: the spec scenario Creating, Creating, Active with
target state Active succeeds with the third representation. -/
theorem wait_reaches_target_witness :
    Wait probeSeqCreating noCancel ["Active"] [] 5 = .success (some "rep-active") := by
  have h := wait_reaches_target probeSeqCreating noCancel ["Active"] [] 2 5
    (by decide) (fun i _ => rfl) (by decide) (by decide) (by decide)
  simpa [probeSeqCreating] using h

/-- Claim C6: as soon as a probe returns a token in `failureStates` (and
not in `targetStates`, which the loop checks first), `Wait` returns the
unexpected-terminal-state error embedding the last representation, and
the outcome does not depend on any probe result after that index: zero
retries after a failure-state token. -/
theorem wait_failure_stops {ρ : Type} (probe : Nat → StateRefreshResult ρ)
    (cancel : Nat → Bool) (ts fs : List String) (n fuel : Nat)
    (hfuel : n < fuel)
    (hcancel : ∀ i, i ≤ n → cancel i = false)
    (hpre : ∀ i, i < n → nonTerminal (probe i) ts fs)
    (herr : (probe n).2.2 = none)
    (htgt : (probe n).2.1 ∉ ts)
    (hfail : (probe n).2.1 ∈ fs) :
    Wait probe cancel ts fs fuel = .unexpectedTerminalState (probe n).2.1 (probe n).1
    ∧ ∀ probe2 : Nat → StateRefreshResult ρ, (∀ i, i ≤ n → probe2 i = probe i) →
      Wait probe2 cancel ts fs fuel
        = .unexpectedTerminalState (probe n).2.1 (probe n).1 := by
  have hgen : ∀ probe2 : Nat → StateRefreshResult ρ, (∀ i, i ≤ n → probe2 i = probe i) →
      Wait probe2 cancel ts fs fuel
        = .unexpectedTerminalState (probe n).2.1 (probe n).1 := by
    intro probe2 hagree
    obtain ⟨m, hm⟩ : ∃ m, fuel = n + (m + 1) := ⟨fuel - n - 1, by omega⟩
    have hskip := waitLoop_skip_prefix probe2 cancel ts fs n 0 (m + 1)
      (fun k hk => hcancel (0 + k) (by omega))
      (fun k hk => by
        rw [Nat.zero_add, hagree k (by omega)]
        exact hpre k (by omega))
    have hp2n : probe2 n = probe n := hagree n (Nat.le_refl n)
    rcases hpn : probe n with ⟨rep, token, err⟩
    rw [hpn] at herr htgt hfail
    simp only at herr htgt hfail
    subst herr
    have hcn : cancel n = false := hcancel n (Nat.le_refl n)
    rw [Wait, hm, hskip, Nat.zero_add]
    simp [waitLoop, hcn, hp2n, hpn, htgt, hfail]
  exact ⟨hgen probe (fun i _ => rfl), hgen⟩

/-- Witness probe sequence for C6: Failed on the first call. -/
def probeSeqFailed : Nat → StateRefreshResult String := fun _ =>
  (some "rep-failed", "Failed", none)

/-- A probe sequence agreeing with `probeSeqFailed` only at index 0. -/
def probeSeqFailedThenActive : Nat → StateRefreshResult String := fun n =>
  if n = 0 then (some "rep-failed", "Failed", none)
  else (some "rep-active", "Active", none)

/-- Witness for C6: the spec scenario Failed on the first call with
failureStates = Failed returns the unexpected-terminal error at once,
and the same outcome holds whatever the later probe results are. -/
theorem wait_failure_stops_witness :
    Wait probeSeqFailed noCancel ["Active"] ["Failed"] 5
      = .unexpectedTerminalState "Failed" (some "rep-failed")
    ∧ Wait probeSeqFailedThenActive noCancel ["Active"] ["Failed"] 5
      = .unexpectedTerminalState "Failed" (some "rep-failed") := by
  have h := wait_failure_stops probeSeqFailed noCancel ["Active"] ["Failed"] 0 5
    (by decide) (fun i _ => rfl) (by decide) (by decide) (by decide) (by decide)
  exact ⟨h.1, h.2 probeSeqFailedThenActive (by decide)⟩

/-- Claim C7: if cancellation is signaled between two polls, `Wait`
returns Cancelled: the signal is checked at the top of the loop
iteration, before the next probe, and the outcome does not depend on the
probe results from that iteration on. -/
theorem wait_cancelled_before_probe {ρ : Type} (probe : Nat → StateRefreshResult ρ)
    (cancel : Nat → Bool) (ts fs : List String) (n fuel : Nat)
    (hfuel : n < fuel)
    (hcancel : ∀ i, i < n → cancel i = false)
    (hpre : ∀ i, i < n → nonTerminal (probe i) ts fs)
    (hc : cancel n = true) :
    Wait probe cancel ts fs fuel = .cancelled
    ∧ ∀ probe2 : Nat → StateRefreshResult ρ, (∀ i, i < n → probe2 i = probe i) →
      Wait probe2 cancel ts fs fuel = .cancelled := by
  have hgen : ∀ probe2 : Nat → StateRefreshResult ρ, (∀ i, i < n → probe2 i = probe i) →
      Wait probe2 cancel ts fs fuel = .cancelled := by
    intro probe2 hagree
    obtain ⟨m, hm⟩ : ∃ m, fuel = n + (m + 1) := ⟨fuel - n - 1, by omega⟩
    have hskip := waitLoop_skip_prefix probe2 cancel ts fs n 0 (m + 1)
      (fun k hk => hcancel (0 + k) (by omega))
      (fun k hk => by
        rw [Nat.zero_add, hagree k (by omega)]
        exact hpre k (by omega))
    rw [Wait, hm, hskip, Nat.zero_add]
    simp [waitLoop, hc]
  exact ⟨hgen probe (fun i _ => rfl), hgen⟩

/-- Witness probe for C7: always Creating. -/
def probeSeqPolling : Nat → StateRefreshResult String := fun _ =>
  (some "rep-creating", "Creating", none)

/-- A probe agreeing with `probeSeqPolling` only before index 1. -/
def probeSeqPollingThenBoom : Nat → StateRefreshResult String := fun n =>
  if n = 0 then (some "rep-creating", "Creating", none)
  else (none, "", some (.plain "boom"))

/-- The cancellation signal that fires from iteration 1 on. -/
def cancelFromOne : Nat → Bool := fun n => decide (1 ≤ n)

/-- Witness for C7: cancellation signaled after the first poll yields
Cancelled, also when every probe from the second on would fail. -/
theorem wait_cancelled_before_probe_witness :
    Wait probeSeqPolling cancelFromOne ["Active"] [] 5 = .cancelled
    ∧ Wait probeSeqPollingThenBoom cancelFromOne ["Active"] [] 5 = .cancelled := by
  have h := wait_cancelled_before_probe probeSeqPolling cancelFromOne ["Active"] [] 1 5
    (by decide) (by decide) (by decide) (by decide)
  exact ⟨h.1, h.2 probeSeqPollingThenBoom (by decide)⟩

/-! ## SageMaker model resource: container expand/flatten and Read -/

/-- One element of a Terraform `image_config` block. -/
structure ImageConfigMap where
  repository_access_mode : String
deriving DecidableEq, Repr

/-- The Terraform-side container configuration map. A `none` field is an
absent key; string values are as the schema delivers them (possibly
empty); `environment` is the entry list of the string map; `image_config`
is the block list (`MaxItems: 1` in the schema). -/
structure ContainerMap where
  image : Option String
  model_package_name : Option String
  mode : Option String
  container_hostname : Option String
  model_data_url : Option String
  environment : Option (List (String × String))
  image_config : Option (List ImageConfigMap)
deriving DecidableEq, Repr

/-- `sagemaker.ImageConfig` (`RepositoryAccessMode` is a `*string`). -/
structure ImageConfig where
  RepositoryAccessMode : Option String
deriving DecidableEq, Repr

/-- `sagemaker.ContainerDefinition`: every field is a pointer (or a map)
that may be nil. -/
structure ContainerDefinition where
  Image : Option String
  ModelPackageName : Option String
  Mode : Option String
  ContainerHostname : Option String
  ModelDataUrl : Option String
  Environment : Option (List (String × String))
  ImageConfig : Option ImageConfig
deriving DecidableEq, Repr

/-- `expandSagemakerModelImageConfig`: nil for an empty block list,
otherwise an ImageConfig built from the first element's access mode. -/
def expandSagemakerModelImageConfig (l : List ImageConfigMap) : Option ImageConfig :=
  match l with
  | [] => none
  | m :: _ => some { RepositoryAccessMode := some m.repository_access_mode }

/-- `expandContainer`: each string key is copied when present and
non-empty; `environment` is copied through `expandStringMap` (a non-nil
map of the same entries) when the key is present; `image_config` goes
through `expandSagemakerModelImageConfig` when the key is present. -/
def expandContainer (m : ContainerMap) : ContainerDefinition where
  Image := match m.image with
    | some v => if v ≠ "" then some v else none
    | none => none
  ModelPackageName := match m.model_package_name with
    | some v => if v ≠ "" then some v else none
    | none => none
  Mode := match m.mode with
    | some v => if v ≠ "" then some v else none
    | none => none
  ContainerHostname := match m.container_hostname with
    | some v => if v ≠ "" then some v else none
    | none => none
  ModelDataUrl := match m.model_data_url with
    | some v => if v ≠ "" then some v else none
    | none => none
  Environment := m.environment
  ImageConfig := match m.image_config with
    | some l => expandSagemakerModelImageConfig l
    | none => none

/-- `flattenSagemakerImageConfig`: empty list for nil, otherwise one map
with the dereferenced access mode. -/
def flattenSagemakerImageConfig (imageConfig : Option ImageConfig) : List ImageConfigMap :=
  match imageConfig with
  | none => []
  | some ic => [{ repository_access_mode := awsStringValue ic.RepositoryAccessMode }]

/-- `flattenContainer`: empty list for a nil container, otherwise one map
holding every non-nil field, with pointer fields dereferenced by
`aws.StringValue` and maps copied by `aws.StringValueMap`. -/
def flattenContainer (container : Option ContainerDefinition) : List ContainerMap :=
  match container with
  | none => []
  | some c =>
    [{ image := match c.Image with
        | some v => some (awsStringValue (some v))
        | none => none
       model_package_name := match c.ModelPackageName with
        | some v => some (awsStringValue (some v))
        | none => none
       mode := match c.Mode with
        | some v => some (awsStringValue (some v))
        | none => none
       container_hostname := match c.ContainerHostname with
        | some v => some (awsStringValue (some v))
        | none => none
       model_data_url := match c.ModelDataUrl with
        | some v => some (awsStringValue (some v))
        | none => none
       environment := c.Environment
       image_config := match c.ImageConfig with
        | some ic => some (flattenSagemakerImageConfig (some ic))
        | none => none }]

/-- Claim C9: for a container configuration map whose five string fields
are present and non-empty, whose `environment` key is present, and whose
`image_config` block is present (one element, per the schema's
`MaxItems: 1`), flattening the expanded container yields the singleton
list holding exactly the original map. -/
theorem flattenContainer_expandContainer_roundtrip (m : ContainerMap)
    (img pkg md host url : String) (env : List (String × String)) (ic : ImageConfigMap)
    (h1 : m.image = some img) (h1ne : img ≠ "")
    (h2 : m.model_package_name = some pkg) (h2ne : pkg ≠ "")
    (h3 : m.mode = some md) (h3ne : md ≠ "")
    (h4 : m.container_hostname = some host) (h4ne : host ≠ "")
    (h5 : m.model_data_url = some url) (h5ne : url ≠ "")
    (h6 : m.environment = some env)
    (h7 : m.image_config = some [ic]) :
    flattenContainer (some (expandContainer m)) = [m] := by
  obtain ⟨i, p, mo, ho, u, e, c⟩ := m
  simp only at h1 h2 h3 h4 h5 h6 h7
  subst h1 h2 h3 h4 h5 h6 h7
  simp [flattenContainer, expandContainer, expandSagemakerModelImageConfig,
    flattenSagemakerImageConfig, awsStringValue, h1ne, h2ne, h3ne, h4ne, h5ne]

/-- A fully populated concrete container configuration map. -/
def sampleContainerMap : ContainerMap where
  image := some "123.dkr.ecr.example/image:latest"
  model_package_name := some "pkg-1"
  mode := some "SingleModel"
  container_hostname := some "host-1"
  model_data_url := some "s3://bucket/model.tar.gz"
  environment := some [("KEY", "value")]
  image_config := some [{ repository_access_mode := "Platform" }]

/-- Witness for C9 at a fully populated concrete map. -/
theorem flattenContainer_expandContainer_roundtrip_witness :
    flattenContainer (some (expandContainer sampleContainerMap)) = [sampleContainerMap] := by
  exact flattenContainer_expandContainer_roundtrip sampleContainerMap
    "123.dkr.ecr.example/image:latest" "pkg-1" "SingleModel" "host-1"
    "s3://bucket/model.tar.gz" [("KEY", "value")] { repository_access_mode := "Platform" }
    rfl (by decide) rfl (by decide) rfl (by decide) rfl (by decide) rfl (by decide) rfl rfl

/-- `strings.Contains` on Go strings. -/
def stringContains (s sub : String) : Bool :=
  decide (sub.toList <:+: s.toList)

/-- `isAWSErr(err, code, message)`: `err` is an AWS SDK error whose code
equals `code` and whose message contains `message`. -/
def isAWSErr (err : GoError) (code message : String) : Bool :=
  match err with
  | .awsError c m => c == code && stringContains m message
  | _ => false

/-- `sagemaker.DescribeModelOutput` (the fields Read consumes). -/
structure DescribeModelOutput where
  ModelArn : Option String
  ModelName : Option String
  ExecutionRoleArn : Option String
  PrimaryContainer : Option ContainerDefinition
  Containers : List ContainerDefinition
deriving DecidableEq, Repr

/-- `resourceAwsSagemakerModelRead`, restricted to what it does to the
resource id and its returned error. Inputs are the current id and the
observed results of the two remote calls (`DescribeModel`, then
`SagemakerListTags` on the success path); the result is the id left in
state paired with the returned error (none = success). A
`ValidationException` from DescribeModel clears the id and succeeds; any
other DescribeModel error is wrapped and returned with the id kept. -/
def resourceAwsSagemakerModelRead (id : String)
    (describeModel : Except GoError DescribeModelOutput)
    (listTags : Except GoError (List (String × String))) :
    String × Option String :=
  match describeModel with
  | .error e =>
    if isAWSErr e "ValidationException" "" then ("", none)
    else (id, some ("error reading Sagemaker model " ++ id))
  | .ok _model =>
    match listTags with
    | .error _e => (id, some ("error listing tags for Sagemaker Model (" ++ id ++ ")"))
    | .ok _ => (id, none)

/-- Claim C10: when DescribeModel fails with an AWS ValidationException,
Read clears the resource id and returns success; on any other
DescribeModel error it keeps the id and returns a non-nil wrapped
error. -/
theorem modelRead_describe_error_handling (id : String) (e : GoError)
    (listTags : Except GoError (List (String × String))) :
    (isAWSErr e "ValidationException" "" = true →
      resourceAwsSagemakerModelRead id (.error e) listTags = ("", none))
    ∧ (isAWSErr e "ValidationException" "" = false →
      (resourceAwsSagemakerModelRead id (.error e) listTags).1 = id
        ∧ (resourceAwsSagemakerModelRead id (.error e) listTags).2
          = some ("error reading Sagemaker model " ++ id)) := by
  constructor
  · intro h
    simp [resourceAwsSagemakerModelRead, h]
  · intro h
    constructor <;> simp [resourceAwsSagemakerModelRead, h]

/-- Witness for C10: a ValidationException clears the id, a throttling
error keeps it and reports the wrapped error. -/
theorem modelRead_describe_error_handling_witness :
    resourceAwsSagemakerModelRead "my-model"
      (.error (.awsError "ValidationException" "Could not find model")) (.ok []) = ("", none)
    ∧ (resourceAwsSagemakerModelRead "my-model"
        (.error (.awsError "ThrottlingException" "Rate exceeded")) (.ok [])).1 = "my-model"
    ∧ (resourceAwsSagemakerModelRead "my-model"
        (.error (.awsError "ThrottlingException" "Rate exceeded")) (.ok [])).2
      = some ("error reading Sagemaker model " ++ "my-model") := by
  have h1 := (modelRead_describe_error_handling "my-model"
    (.awsError "ValidationException" "Could not find model") (.ok [])).1 (by decide)
  have h2 := (modelRead_describe_error_handling "my-model"
    (.awsError "ThrottlingException" "Rate exceeded") (.ok [])).2 (by decide)
  exact ⟨h1, h2.1, h2.2⟩

end TfAws
